import Mathlib

/-!
Verification of the template-composition demo server (src/main.go).

The development shallowly embeds the Go program: the `dict` template helper
is translated directly from the source; the composition loop, the template
cache, the route table and the request handlers are translated from `main`.
The template fragment files under `templates/` and the template-engine
parse/render semantics are not part of `src/`, so those are modelled from
the specification and marked as such in their doc comments.
-/

/-- A Go `interface\x7b\x7d` value as it is passed to the `dict` helper: a string,
an integer, or the nil interface. -/
inductive GoVal where
  | str (s : String)
  | int (n : Int)
  | nil
deriving DecidableEq

/-- A Go `map[string]interface\x7b\x7d`, embedded as an association list in which
an insert removes any previous binding of the key. -/
abbrev GoDict := List (String × GoVal)

/-- Go map assignment `m[k] = v`: the new binding replaces any previous binding
of the same key. -/
def dictInsert (d : GoDict) (k : String) (v : GoVal) : GoDict :=
  (k, v) :: d.filter (fun p => p.1 != k)

/-- The loop body of the `dict` helper (src/main.go lines 39-45): walk the
argument list two at a time, requiring each key position to hold a string. -/
def dictLoop (acc : GoDict) : List GoVal → Except String GoDict
  | [] => .ok acc
  | GoVal.str s :: v :: rest => dictLoop (dictInsert acc s v) rest
  | _ :: _ :: _ => .error "dict keys must be strings"
  | [_] => .error "invalid dict call"

/-- The `dict` template helper (src/main.go lines 34-47): reject an odd
argument count, then pair up keys with the values that follow them. -/
def dict (values : List GoVal) : Except String GoDict :=
  if values.length % 2 ≠ 0 then .error "invalid dict call"
  else dictLoop [] values

/-- Whether a value is a Go string (the type assertion `values[i].(string)`). -/
def isStr : GoVal → Bool
  | .str _ => true
  | _ => false

/-- Every key position (even index) of the argument list holds a string. -/
def strKeys : List GoVal → Bool
  | [] => true
  | [k] => isStr k
  | k :: _ :: rest => isStr k && strKeys rest

/-- The value that follows the last key-position occurrence of `k`. -/
def lastBinding (k : String) : List GoVal → Option GoVal
  | kv :: v :: rest =>
      (match lastBinding k rest with
       | some w => some w
       | none => if kv = GoVal.str k then some v else none)
  | _ => none

theorem lookup_filter_ne (k s : String) (h : k ≠ s) :
    ∀ d : GoDict, (d.filter (fun p => p.1 != s)).lookup k = d.lookup k := by
  intro d
  induction d with
  | nil => rfl
  | cons p rest ih =>
      obtain ⟨pk, pv⟩ := p
      by_cases hp : pk = s
      · have hk : (k == pk) = false := by
          apply beq_eq_false_iff_ne.mpr
          rw [hp]
          exact h
        have hks : (k == s) = false := beq_eq_false_iff_ne.mpr h
        simp [List.filter_cons, hp, List.lookup, hk, hks, ih]
      · simp only [List.filter_cons]
        rw [if_pos (by simpa using hp)]
        cases hk : k == pk with
        | true => simp [List.lookup, hk]
        | false => simp [List.lookup, hk, ih]

theorem dictInsert_lookup (d : GoDict) (s : String) (v : GoVal) (k : String) :
    (dictInsert d s v).lookup k = if k = s then some v else d.lookup k := by
  by_cases h : k = s
  · simp [dictInsert, List.lookup, h]
  · have hb : (k == s) = false := beq_eq_false_iff_ne.mpr h
    simp [dictInsert, List.lookup, hb, lookup_filter_ne k s h d, h]

theorem dictLoop_isOk (acc : GoDict) : ∀ values : List GoVal,
    (dictLoop acc values).isOk = (decide (values.length % 2 = 0) && strKeys values)
  | [] => by simp [dictLoop, strKeys, Except.isOk, Except.toBool]
  | [k] => by
      cases k <;> simp [dictLoop, strKeys, isStr, Except.isOk, Except.toBool]
  | k :: v :: rest => by
      have hmod : (rest.length + 1 + 1) % 2 = rest.length % 2 := by omega
      cases k with
      | str s =>
          have ih := dictLoop_isOk (dictInsert acc s v) rest
          simp [dictLoop, strKeys, isStr, ih, List.length_cons, hmod]
      | int n => simp [dictLoop, strKeys, isStr, Except.isOk, Except.toBool]
      | nil => simp [dictLoop, strKeys, isStr, Except.isOk, Except.toBool]

theorem dictLoop_lookup (k : String) : ∀ (values : List GoVal) (acc d : GoDict),
    dictLoop acc values = .ok d →
    d.lookup k = (match lastBinding k values with
                  | some w => some w
                  | none => acc.lookup k)
  | [], acc, d, h => by
      cases h
      simp [lastBinding]
  | [x], acc, d, h => by
      cases x <;> simp [dictLoop] at h
  | GoVal.str s :: v :: rest, acc, d, h => by
      have ih := dictLoop_lookup k rest (dictInsert acc s v) d (by
        simpa [dictLoop] using h)
      rw [ih]
      cases hl : lastBinding k rest with
      | some w => simp [lastBinding, hl]
      | none =>
          by_cases hks : s = k
          · subst hks
            simp [lastBinding, hl, dictInsert_lookup]
          · have : ¬ (GoVal.str s = GoVal.str k) := by
              intro hc
              exact hks (GoVal.str.inj hc)
            simp [lastBinding, hl, dictInsert_lookup, this, Ne.symm hks]
  | GoVal.int n :: v :: rest, acc, d, h => by simp [dictLoop] at h
  | GoVal.nil :: v :: rest, acc, d, h => by simp [dictLoop] at h

/-- C2: the `dict` helper fails if and only if the argument count is odd or a
key-position argument is not a string; otherwise it succeeds, and on the spec
examples it pairs each key with the following argument: `dict("a",1,"b",2)`
yields the mapping with a↦1 and b↦2, `dict("a",1,"b")` fails with the
odd-count error, and `dict(1,"x")` fails with the non-string-key error. -/
theorem dict_error_iff :
    (∀ values : List GoVal,
        (dict values).isOk = true ↔ (values.length % 2 = 0 ∧ strKeys values = true))
    ∧ (∃ d, dict [GoVal.str "a", GoVal.int 1, GoVal.str "b", GoVal.int 2] = .ok d
        ∧ d.lookup "a" = some (GoVal.int 1) ∧ d.lookup "b" = some (GoVal.int 2))
    ∧ dict [GoVal.str "a", GoVal.int 1, GoVal.str "b"] = .error "invalid dict call"
    ∧ dict [GoVal.int 1, GoVal.str "x"] = .error "dict keys must be strings" := by
  refine ⟨?_, ⟨?_, ?_, ?_⟩⟩
  · intro values
    by_cases hmod : values.length % 2 = 0
    · rw [show dict values = dictLoop [] values by simp [dict, hmod]]
      rw [dictLoop_isOk]
      simp [hmod]
    · have he : dict values = .error "invalid dict call" := by simp [dict, hmod]
      rw [he]
      simp [Except.isOk, Except.toBool, hmod]
  · exact ⟨[("b", GoVal.int 2), ("a", GoVal.int 1)], by rfl, by rfl, by rfl⟩
  · rfl
  · rfl

/-- C2 witness: the success criterion instantiated at the four-argument call. -/
theorem dict_error_iff_witness :
    (dict [GoVal.str "a", GoVal.int 1, GoVal.str "b", GoVal.int 2]).isOk = true :=
  (dict_error_iff.1 [GoVal.str "a", GoVal.int 1, GoVal.str "b", GoVal.int 2]).mpr
    ⟨by rfl, by rfl⟩

/-- C10: on an even-length argument list whose key positions are all strings,
`dict` succeeds even when keys repeat, and each key is mapped to the value
that follows its last occurrence; the zero-argument call returns the empty
mapping. -/
theorem dict_last_wins :
    dict [] = .ok []
    ∧ (∀ values : List GoVal, values.length % 2 = 0 → strKeys values = true →
        ∃ d, dict values = .ok d
          ∧ ∀ k : String, d.lookup k = (match lastBinding k values with
                                        | some w => some w
                                        | none => none)) := by
  refine ⟨by rfl, ?_⟩
  intro values hmod hkeys
  have hok : (dictLoop [] values).isOk = true := by
    rw [dictLoop_isOk]
    simp [hmod, hkeys]
  cases hd : dictLoop [] values with
  | error e => rw [hd] at hok; simp [Except.isOk, Except.toBool] at hok
  | ok d =>
      refine ⟨d, by simp [dict, hmod, hd], ?_⟩
      intro k
      have := dictLoop_lookup k values [] d hd
      rw [this]
      cases lastBinding k values <;> simp

/-- C10 witness: a repeated key is bound to the value of its last occurrence. -/
theorem dict_last_wins_witness :
    ∃ d, dict [GoVal.str "a", GoVal.int 1, GoVal.str "a", GoVal.int 2] = .ok d
      ∧ d.lookup "a" = some (GoVal.int 2) := by
  obtain ⟨d, hd, hl⟩ :=
    dict_last_wins.2 [GoVal.str "a", GoVal.int 1, GoVal.str "a", GoVal.int 2]
      (by rfl) (by rfl)
  exact ⟨d, hd, by rw [hl "a"]; rfl⟩

/-- A parsed template fragment: the named blocks it defines, the named blocks
it references via template invocations, and the context keys its body reads
at render time.  Modelled from the spec: the fragment files under
`templates/` are not part of `src/`; spec sections 3 and 4.2 describe a
fragment as a unit of markup owning named blocks and referencing blocks of
sibling fragments, and section 7 describes render-time context-field use. -/
structure FragmentData where
  defines : List String
  references : List String
  requiredKeys : List String
deriving DecidableEq

/-- A file on disk: either markup that parses into a fragment, or markup with
a syntax error. -/
inductive FileContent where
  | frag (data : FragmentData)
  | malformed
deriving DecidableEq

/-- The filesystem visible to the composer: a finite map from path to file. -/
abbrev FSys := List (String × FileContent)

/-- Path of the layout fragment (src/main.go line 56). -/
def layoutPath (dir : String) : String := dir ++ "/templates/layout.tmpl"

/-- Path of the sidebar fragment (src/main.go line 57). -/
def sidebarPath (dir : String) : String := dir ++ "/templates/sidebar.tmpl"

/-- Path of the page-body fragment for a page (src/main.go line 58). -/
def pagePath (dir page : String) : String := dir ++ "/templates/pages/" ++ page ++ ".tmpl"

/-- Path of the headline fragment (src/main.go line 59). -/
def headlinePath (dir : String) : String := dir ++ "/templates/headline.tmpl"

/-- Reading and parsing one fragment file: fails when the file is missing or
contains a syntax error.  Modelled from the spec (section 4.2 error
conditions); the real parser is the template engine, not part of `src/`. -/
def parseFile (fs : FSys) (path : String) : Except String FragmentData :=
  match fs.lookup path with
  | none => .error ("missing file: " ++ path)
  | some FileContent.malformed => .error ("parse error: " ++ path)
  | some (FileContent.frag d) => .ok d

/-- How many of the given fragments define the named block. -/
def definedCount (frags : List FragmentData) (b : String) : Nat :=
  (frags.filter (fun f => f.defines.contains b)).length

/-- A composed template unit: the entry name, the helper names attached, and
the merged fragments in parse order. -/
structure TemplateUnit where
  entryName : String
  funcs : List String
  fragments : List FragmentData
deriving DecidableEq

/-- The fixed page list (src/main.go line 30). -/
def pages : List String := ["home", "about"]

/-- Composing one page (src/main.go lines 50-64).  The four fragment files
are parsed in source order into a unit named after the layout fragment, with
the function registry attached.  Modelled from the spec where the engine is
not in `src/`: per sections 4.2 and 8, composition succeeds iff every file
parses and every named block referenced by the layout fragment is defined by
exactly one of the sidebar, headline and page-body fragments. -/
def composePage (fs : FSys) (dir page : String) : Except String TemplateUnit :=
  match parseFile fs (layoutPath dir) with
  | .error e => .error e
  | .ok layout =>
    match parseFile fs (sidebarPath dir) with
    | .error e => .error e
    | .ok sidebar =>
      match parseFile fs (pagePath dir page) with
      | .error e => .error e
      | .ok body =>
        match parseFile fs (headlinePath dir) with
        | .error e => .error e
        | .ok headline =>
          if layout.references.all (fun b => definedCount [sidebar, headline, body] b == 1) then
            Except.ok ⟨"layout.tmpl", ["dict"], [layout, sidebar, body, headline]⟩
          else
            Except.error ("composition error: page " ++ page)

/-- One step the composer takes, in program order. -/
inductive ComposerEvent where
  | newUnit (name : String)
  | attachFuncs
  | parseFileEv (path : String)
deriving DecidableEq

/-- The sequence of steps the composer performs for one page, transcribed
from src/main.go lines 52-59: create the named unit, attach the function
registry, then parse the four fragment files. -/
def composeTrace (dir page : String) : List ComposerEvent :=
  [ComposerEvent.newUnit "layout.tmpl", ComposerEvent.attachFuncs,
   ComposerEvent.parseFileEv (layoutPath dir),
   ComposerEvent.parseFileEv (sidebarPath dir),
   ComposerEvent.parseFileEv (pagePath dir page),
   ComposerEvent.parseFileEv (headlinePath dir)]

/-- Whether an event is a file parse. -/
def isParseEv : ComposerEvent → Bool
  | ComposerEvent.parseFileEv _ => true
  | _ => false

/-- Whether an event is the registry attachment. -/
def isAttach : ComposerEvent → Bool
  | ComposerEvent.attachFuncs => true
  | _ => false

/-- No registry attachment happens after any parse event in the trace. -/
def noAttachAfterParse : List ComposerEvent → Bool
  | [] => true
  | e :: rest =>
      (if isParseEv e then rest.all (fun x => !isAttach x) else true)
      && noAttachAfterParse rest

/-- The template cache (src/main.go line 31). -/
abbrev Cache := List (String × TemplateUnit)

/-- Go map assignment on the cache: `cache[page] = goTpl`. -/
def cacheInsert (c : Cache) (k : String) (u : TemplateUnit) : Cache :=
  (k, u) :: c.filter (fun p => p.1 != k)

/-- The composition loop over the page list (src/main.go lines 50-65): the
first failing page aborts the whole loop, otherwise every composed unit is
stored under its page identifier. -/
def buildCacheLoop (fs : FSys) (dir : String) (acc : Cache) : List String → Except String Cache
  | [] => .ok acc
  | p :: rest =>
      match composePage fs dir p with
      | .error e => .error e
      | .ok u => buildCacheLoop fs dir (cacheInsert acc p u) rest

/-- The outcome of startup: either the process dies via log.Fatal, or the
server starts serving with a fully built cache. -/
inductive MainResult where
  | fatal (msg : String)
  | serving (cache : Cache)
deriving DecidableEq

/-- Startup (src/main.go `main`): build the cache for every page, then start
the server; any composition error is fatal before the server starts. -/
def runMain (fs : FSys) (dir : String) : MainResult :=
  match buildCacheLoop fs dir [] pages with
  | .error e => .fatal e
  | .ok c => .serving c

/-- Lookup of a context key in an optional render context. -/
def ctxLookup (ctx : Option GoDict) (k : String) : Option GoVal :=
  match ctx with
  | none => none
  | some d => d.lookup k

/-- A value rendered into text, for building the deterministic output. -/
def serializeVal : GoVal → String
  | GoVal.str s => s
  | GoVal.int n => toString n
  | GoVal.nil => ""

/-- The render context serialized into text. -/
def serializeCtx : Option GoDict → String
  | none => ""
  | some d => String.join (d.map (fun p => p.1 ++ "=" ++ serializeVal p.2 ++ ";"))

/-- One fragment serialized into text. -/
def serializeFrag (f : FragmentData) : String :=
  String.join f.defines ++ "|" ++ String.join f.references

/-- Rendering a composed unit against a context.  Modelled from the spec:
template execution is engine code not in `src/`; per section 5 rendering is
a deterministic bounded computation over the unit and the context, and per
section 7 a render error arises when a fragment reads a context field that
is absent.  The produced body is an abstract deterministic serialization. -/
def renderUnit (u : TemplateUnit) (ctx : Option GoDict) : Except String String :=
  if u.fragments.all (fun f => f.requiredKeys.all (fun k => (ctxLookup ctx k).isSome)) then
    .ok (u.entryName ++ ":" ++ String.join (u.fragments.map serializeFrag)
          ++ ":" ++ serializeCtx ctx)
  else
    .error "render failed: missing context key"

/-- The route table (src/main.go lines 119 and 126): pattern to page id. -/
def routes : List (String × String) := [("/", "home"), ("/about", "about")]

/-- An inbound HTTP request, reduced to the data the dispatcher reads. -/
structure HttpRequest where
  method : String
  path : String
deriving DecidableEq

/-- One character sequence leading another. -/
def leadsList : List Char → List Char → Bool
  | [], _ => true
  | _ :: _, [] => false
  | a :: as, b :: bs => if a = b then leadsList as bs else false

/-- Whether the path begins with the given pattern text. -/
def pathBegins (path pat : String) : Bool :=
  leadsList pat.data path.data

/-- ServeMux pattern matching: a pattern ending in a slash matches every
path it prefixes, any other pattern matches exactly.  Modelled from the
spec and the documented net/http mux behavior, which is not in `src/`. -/
def patternMatches (pat path : String) : Bool :=
  if pat.data.getLast? = some '/' then pathBegins path pat else pat == path

/-- Route selection: among registered patterns matching the path, the
longest pattern wins.  Modelled from the documented net/http mux. -/
def muxSelect (path : String) : Option (String × String) :=
  (routes.filter (fun r => patternMatches r.1 path)).foldl
    (fun best r =>
      match best with
      | none => some r
      | some b => if b.1.length < r.1.length then some r else some b)
    none

/-- The render context each handler passes to Execute (src/main.go lines
120 and 127): the literal name map for "home", nil for "about". -/
def handlerContext : String → Option GoDict
  | "home" => some [("name", GoVal.str "Jan")]
  | _ => none

/-- What one request produces: a response body, a fatal process exit, or
the mux 404. -/
inductive HandlerResult where
  | response (body : String)
  | fatalExit (msg : String)
  | notFound
deriving DecidableEq

/-- The shared handler body (src/main.go lines 120-123 and 127-130): render
the cached unit and write the body, or die via log.Fatal on a render error. -/
def renderDispatch (u : TemplateUnit) (ctx : Option GoDict) : HandlerResult :=
  match renderUnit u ctx with
  | .ok body => HandlerResult.response body
  | .error e => HandlerResult.fatalExit ("cannot execute template. " ++ e)

/-- Handling one request: select the route, look up the cached unit, render. -/
def handleRequest (c : Cache) (req : HttpRequest) : HandlerResult :=
  match muxSelect req.path with
  | none => HandlerResult.notFound
  | some pr =>
      match c.lookup pr.2 with
      | none => HandlerResult.notFound
      | some u => renderDispatch u (handlerContext pr.2)

/-- One server step: the handlers only read the cache, so the cache after a
request is the cache before it. -/
def serverStep (c : Cache) (req : HttpRequest) : Cache × HandlerResult :=
  (c, handleRequest c req)

/-- A concrete filesystem with the block structure documented in the
src/main.go comments (lines 69-90): the layout references the sidebar and
main blocks, the sidebar and headline fragments define their blocks, and
each page body defines main and references the headline; the home body
reads the name context key. -/
def demoFS (dir : String) : FSys :=
  [(layoutPath dir, FileContent.frag ⟨[], ["sidebar", "main"], []⟩),
   (sidebarPath dir, FileContent.frag ⟨["sidebar"], [], []⟩),
   (pagePath dir "home", FileContent.frag ⟨["main"], ["headline"], ["name"]⟩),
   (pagePath dir "about", FileContent.frag ⟨["main"], ["headline"], []⟩),
   (headlinePath dir, FileContent.frag ⟨["headline"], [], []⟩)]

/-- The render error of a dispatch is never the mux 404. -/
theorem renderDispatch_ne_notFound (u : TemplateUnit) (ctx : Option GoDict) :
    renderDispatch u ctx ≠ HandlerResult.notFound := by
  cases h : renderUnit u ctx <;> simp [renderDispatch, h]

/-- Any path other than "/about" that begins with a slash selects the
catch-all home route. -/
theorem muxSelect_home (path : String) (h1 : pathBegins path "/" = true)
    (h2 : path ≠ "/about") : muxSelect path = some ("/", "home") := by
  have hm1 : patternMatches "/" path = true := by
    rw [patternMatches, if_pos (by decide)]
    exact h1
  have hm2 : patternMatches "/about" path = false := by
    rw [patternMatches, if_neg (by decide)]
    exact beq_eq_false_iff_ne.mpr (fun he => h2 he.symm)
  simp [muxSelect, routes, List.filter, hm1, hm2, List.foldl]

/-- The exact path "/about" selects the about route by longest match. -/
theorem muxSelect_about : muxSelect "/about" = some ("/about", "about") := by
  decide

/-- C1: for a known page identifier whose four fragment files parse,
composition succeeds if and only if every named block referenced by the
layout fragment is defined by exactly one of the sidebar, headline and
page-body fragments. -/
theorem compose_success_iff (fs : FSys) (dir page : String) (_hpage : page ∈ pages)
    (L S B H : FragmentData)
    (hL : parseFile fs (layoutPath dir) = .ok L)
    (hS : parseFile fs (sidebarPath dir) = .ok S)
    (hB : parseFile fs (pagePath dir page) = .ok B)
    (hH : parseFile fs (headlinePath dir) = .ok H) :
    (composePage fs dir page).isOk = true ↔
      ∀ b ∈ L.references, definedCount [S, H, B] b = 1 := by
  have hcomp : (composePage fs dir page).isOk
      = L.references.all (fun b => definedCount [S, H, B] b == 1) := by
    cases hc : L.references.all (fun b => definedCount [S, H, B] b == 1) with
    | true => simp [composePage, hL, hS, hB, hH, hc, Except.isOk, Except.toBool]
    | false => simp [composePage, hL, hS, hB, hH, hc, Except.isOk, Except.toBool]
  rw [hcomp, List.all_eq_true]
  constructor
  · intro hall b hb
    have h' := hall b hb
    simpa using h'
  · intro hall b hb
    simpa using hall b hb

/-- C1 witness: the criterion instantiated on the documented block structure,
where composing the home page succeeds. -/
theorem compose_success_iff_witness :
    (composePage (demoFS "") "" "home").isOk = true ↔
      ∀ b ∈ (FragmentData.mk [] ["sidebar", "main"] []).references,
        definedCount [⟨["sidebar"], [], []⟩, ⟨["headline"], [], []⟩,
                      ⟨["main"], ["headline"], ["name"]⟩] b = 1 :=
  compose_success_iff (demoFS "") "" "home" (by simp [pages]) _ _ _ _
    (by rfl) (by rfl) (by rfl) (by rfl)

/-- C3: for every page in the fixed page list the composer first creates a
unit whose entry name is "layout.tmpl", then attaches the function registry,
and only afterwards parses the layout, sidebar, page and headline fragment
files; the registry is never attached after any parse. -/
theorem composer_order (dir page : String) (_hpage : page ∈ pages) :
    (composeTrace dir page).take 2
        = [ComposerEvent.newUnit "layout.tmpl", ComposerEvent.attachFuncs]
    ∧ ((composeTrace dir page).drop 2).all isParseEv = true
    ∧ (composeTrace dir page).drop 2
        = [ComposerEvent.parseFileEv (layoutPath dir),
           ComposerEvent.parseFileEv (sidebarPath dir),
           ComposerEvent.parseFileEv (pagePath dir page),
           ComposerEvent.parseFileEv (headlinePath dir)]
    ∧ noAttachAfterParse (composeTrace dir page) = true :=
  ⟨rfl, rfl, rfl, rfl⟩

/-- C3 witness: the ordering facts at the home page. -/
theorem composer_order_witness :
    noAttachAfterParse (composeTrace "" "home") = true :=
  (composer_order "" "home" (by simp [pages])).2.2.2

/-- The cache built by startup on the documented filesystem. -/
def demoCache : Cache :=
  match buildCacheLoop (demoFS "") "" [] pages with
  | .ok c => c
  | .error _ => []

/-- The unit composed for the home page on the documented filesystem. -/
def demoHomeUnit : TemplateUnit :=
  match composePage (demoFS "") "" "home" with
  | .ok u => u
  | .error _ => ⟨"", [], []⟩

/-- The unit composed for the about page on the documented filesystem. -/
def demoAboutUnit : TemplateUnit :=
  match composePage (demoFS "") "" "about" with
  | .ok u => u
  | .error _ => ⟨"", [], []⟩

/-- C4: when startup reaches the serving state, every page identifier in the
route table has a successfully composed unit stored under it in the cache,
and no request step ever writes the cache. -/
theorem startup_cache_complete (fs : FSys) (dir : String) (c : Cache)
    (h : runMain fs dir = MainResult.serving c) :
    (∀ r ∈ routes, ∃ u, c.lookup r.2 = some u ∧ composePage fs dir r.2 = .ok u)
    ∧ ∀ req : HttpRequest, (serverStep c req).1 = c := by
  cases h1 : composePage fs dir "home" with
  | error e => simp [runMain, buildCacheLoop, pages, h1] at h
  | ok u1 =>
      cases h2 : composePage fs dir "about" with
      | error e => simp [runMain, buildCacheLoop, pages, h1, h2] at h
      | ok u2 =>
          have hc : c = cacheInsert (cacheInsert [] "home" u1) "about" u2 := by
            simp [runMain, buildCacheLoop, pages, h1, h2] at h
            exact h.symm
          subst hc
          refine ⟨?_, fun req => rfl⟩
          intro r hr
          simp only [routes, List.mem_cons, List.not_mem_nil, or_false] at hr
          rcases hr with rfl | rfl
          · exact ⟨u1, by rfl, h1⟩
          · exact ⟨u2, by rfl, h2⟩

/-- C4 witness: on the documented filesystem, startup serves with a cache
holding a composed unit for both routed pages, and requests leave it alone. -/
theorem startup_cache_complete_witness :
    (∀ r ∈ routes, ∃ u, demoCache.lookup r.2 = some u
        ∧ composePage (demoFS "") "" r.2 = .ok u)
    ∧ ∀ req : HttpRequest, (serverStep demoCache req).1 = demoCache :=
  startup_cache_complete (demoFS "") "" demoCache (by rfl)

/-- C5: a request dispatched to the root route renders the cached home unit
against the literal name-to-Jan context, and a request dispatched to /about
renders the cached about unit with the nil context. -/
theorem route_render_contexts :
    (∀ (c : Cache) (u : TemplateUnit) (req : HttpRequest),
        c.lookup "home" = some u →
        pathBegins req.path "/" = true → req.path ≠ "/about" →
        (serverStep c req).2 = renderDispatch u (some [("name", GoVal.str "Jan")]))
    ∧ (∀ (c : Cache) (u : TemplateUnit) (m : String),
        c.lookup "about" = some u →
        (serverStep c (HttpRequest.mk m "/about")).2 = renderDispatch u none) := by
  constructor
  · intro c u req hu hp hne
    show handleRequest c req = _
    simp [handleRequest, muxSelect_home req.path hp hne, hu, handlerContext]
  · intro c u m hu
    show handleRequest c (HttpRequest.mk m "/about") = _
    simp [handleRequest, muxSelect_about, hu, handlerContext]

/-- C5 witness: the two dispatch equations at concrete requests and caches. -/
theorem route_render_contexts_witness :
    (serverStep [("home", demoHomeUnit)] (HttpRequest.mk "GET" "/")).2
        = renderDispatch demoHomeUnit (some [("name", GoVal.str "Jan")])
    ∧ (serverStep [("about", demoAboutUnit)] (HttpRequest.mk "POST" "/about")).2
        = renderDispatch demoAboutUnit none :=
  ⟨route_render_contexts.1 [("home", demoHomeUnit)] demoHomeUnit
      (HttpRequest.mk "GET" "/") (by rfl) (by decide) (by decide),
   route_render_contexts.2 [("about", demoAboutUnit)] demoAboutUnit "POST" (by rfl)⟩

/-- C6: if composing any page of the fixed page list fails, startup ends in
the fatal exit and the server never reaches the serving state. -/
theorem compose_failure_fatal (fs : FSys) (dir : String)
    (h : ∃ p ∈ pages, ∃ e, composePage fs dir p = .error e) :
    (∃ m, runMain fs dir = MainResult.fatal m)
    ∧ ∀ c : Cache, runMain fs dir ≠ MainResult.serving c := by
  obtain ⟨p, hp, e, he⟩ := h
  have hfatal : ∃ m, runMain fs dir = MainResult.fatal m := by
    simp only [pages, List.mem_cons, List.not_mem_nil, or_false] at hp
    rcases hp with rfl | rfl
    · exact ⟨e, by simp [runMain, buildCacheLoop, pages, he]⟩
    · cases h1 : composePage fs dir "home" with
      | error e1 => exact ⟨e1, by simp [runMain, buildCacheLoop, pages, h1]⟩
      | ok u1 => exact ⟨e, by simp [runMain, buildCacheLoop, pages, h1, he]⟩
  obtain ⟨m, hm⟩ := hfatal
  refine ⟨⟨m, hm⟩, ?_⟩
  intro c hc
  rw [hm] at hc
  cases hc

/-- C6 witness: on an empty filesystem the layout file is missing, so the
process dies before serving. -/
theorem compose_failure_fatal_witness :
    ∃ m, runMain [] "" = MainResult.fatal m :=
  (compose_failure_fatal [] ""
    ⟨"home", by simp [pages], "missing file: /templates/layout.tmpl", by rfl⟩).1

/-- C7: a render failure while handling any request on any route produces
the fatal process exit, never a response body. -/
theorem render_failure_fatal (c : Cache) (req : HttpRequest)
    (pr : String × String) (u : TemplateUnit) (e : String)
    (hsel : muxSelect req.path = some pr)
    (hu : c.lookup pr.2 = some u)
    (hre : renderUnit u (handlerContext pr.2) = .error e) :
    (serverStep c req).2 = HandlerResult.fatalExit ("cannot execute template. " ++ e)
    ∧ ∀ body : String, (serverStep c req).2 ≠ HandlerResult.response body := by
  have hmain : (serverStep c req).2
      = HandlerResult.fatalExit ("cannot execute template. " ++ e) := by
    show handleRequest c req = _
    simp [handleRequest, hsel, hu, renderDispatch, hre]
  refine ⟨hmain, ?_⟩
  intro body hb
  rw [hmain] at hb
  cases hb

/-- A cached unit whose only fragment needs a context key no route supplies. -/
def badUnit : TemplateUnit :=
  ⟨"layout.tmpl", ["dict"], [⟨[], [], ["name"]⟩]⟩

/-- C7 witness: rendering the about page with a unit that needs the name key
fails and kills the process. -/
theorem render_failure_fatal_witness :
    (serverStep [("about", badUnit)] (HttpRequest.mk "GET" "/about")).2
      = HandlerResult.fatalExit
          "cannot execute template. render failed: missing context key" :=
  (render_failure_fatal [("about", badUnit)] (HttpRequest.mk "GET" "/about")
    ("/about", "about") badUnit "render failed: missing context key"
    muxSelect_about (by rfl) (by rfl)).1

/-- C8: composition is deterministic: two composer runs for the same page on
the same fragment files yield equal units, which render byte-identical
output on every context. -/
theorem compose_deterministic (fs : FSys) (dir page : String)
    (u1 u2 : TemplateUnit)
    (h1 : composePage fs dir page = .ok u1)
    (h2 : composePage fs dir page = .ok u2) :
    u1 = u2 ∧ ∀ ctx : Option GoDict, renderUnit u1 ctx = renderUnit u2 ctx := by
  have he : u1 = u2 := by
    have h12 := h1.symm.trans h2
    exact Except.ok.inj h12
  exact ⟨he, fun ctx => by rw [he]⟩

/-- C8 witness: two composer runs for the home page on the documented
filesystem agree and render identically. -/
theorem compose_deterministic_witness :
    demoHomeUnit = demoHomeUnit
    ∧ ∀ ctx : Option GoDict, renderUnit demoHomeUnit ctx = renderUnit demoHomeUnit ctx :=
  compose_deterministic (demoFS "") "" "home" demoHomeUnit demoHomeUnit
    (by rfl) (by rfl)

/-- C9: the root handler is a catch-all: every request whose path begins
with a slash and is not /about, of any method, selects the home route and is
served the rendered home unit rather than the 404 result, and /about is
likewise served for any method. -/
theorem mux_catch_all :
    (∀ (c : Cache) (u : TemplateUnit) (req : HttpRequest),
        c.lookup "home" = some u →
        pathBegins req.path "/" = true → req.path ≠ "/about" →
        muxSelect req.path = some ("/", "home")
        ∧ (serverStep c req).2 = renderDispatch u (some [("name", GoVal.str "Jan")])
        ∧ (serverStep c req).2 ≠ HandlerResult.notFound)
    ∧ (∀ (c : Cache) (u : TemplateUnit) (m : String),
        c.lookup "about" = some u →
        (serverStep c (HttpRequest.mk m "/about")).2 = renderDispatch u none
        ∧ (serverStep c (HttpRequest.mk m "/about")).2 ≠ HandlerResult.notFound) := by
  constructor
  · intro c u req hu hp hne
    have hstep : (serverStep c req).2
        = renderDispatch u (some [("name", GoVal.str "Jan")]) := by
      show handleRequest c req = _
      simp [handleRequest, muxSelect_home req.path hp hne, hu, handlerContext]
    refine ⟨muxSelect_home req.path hp hne, hstep, ?_⟩
    rw [hstep]
    exact renderDispatch_ne_notFound u _
  · intro c u m hu
    have hstep : (serverStep c (HttpRequest.mk m "/about")).2 = renderDispatch u none := by
      show handleRequest c (HttpRequest.mk m "/about") = _
      simp [handleRequest, muxSelect_about, hu, handlerContext]
    refine ⟨hstep, ?_⟩
    rw [hstep]
    exact renderDispatch_ne_notFound u _

/-- C9 witness: a path registered on no route is still served the home unit,
and /about answers a non-GET method. -/
theorem mux_catch_all_witness :
    muxSelect "/nonexistent" = some ("/", "home")
    ∧ (serverStep [("home", demoHomeUnit)] (HttpRequest.mk "DELETE" "/nonexistent")).2
        ≠ HandlerResult.notFound
    ∧ (serverStep [("about", demoAboutUnit)] (HttpRequest.mk "PUT" "/about")).2
        ≠ HandlerResult.notFound :=
  ⟨(mux_catch_all.1 [("home", demoHomeUnit)] demoHomeUnit
      (HttpRequest.mk "DELETE" "/nonexistent") (by rfl) (by decide) (by decide)).1,
   (mux_catch_all.1 [("home", demoHomeUnit)] demoHomeUnit
      (HttpRequest.mk "DELETE" "/nonexistent") (by rfl) (by decide) (by decide)).2.2,
   (mux_catch_all.2 [("about", demoAboutUnit)] demoAboutUnit "PUT" (by rfl)).2⟩
